import Mathlib

/-!
Verification of the Observation Scheduling & Target Assembly Engine of the
alston-rt repository (src/javascript/app_scripts.js), via a shallow embedding.

JavaScript numbers are modelled as exact fractions of integers (`JsNum`, an
unnormalized pair of numerator and denominator, so that closed terms reduce in
the kernel), read as rationals through `JsNum.val`; `Option JsNum` is used
where the value `NaN` matters (`none` = NaN).  Strings are handled through
`List Char`.  JavaScript host builtins (`Date` ISO formatting, `JSON.parse`)
are modelled by their observable outcome where noted.
-/

/-- A JavaScript number, represented as an exact (unnormalized) fraction
`num / den` of integers.  The arithmetic of the embedded code is exact decimal
arithmetic, so this idealizes IEEE doubles in the usual way. -/
structure JsNum where
  num : ℤ
  den : ℤ
deriving DecidableEq

/-- The rational value denoted by a `JsNum`. -/
def JsNum.val (x : JsNum) : ℚ := (x.num : ℚ) / (x.den : ℚ)

/-- Embed an integer as a `JsNum`. -/
def JsNum.ofInt (n : ℤ) : JsNum := ⟨n, 1⟩

/-- JS `+` on numbers (exact). -/
def JsNum.add (x y : JsNum) : JsNum := ⟨x.num * y.den + y.num * x.den, x.den * y.den⟩

/-- JS `*` on numbers (exact). -/
def JsNum.mul (x y : JsNum) : JsNum := ⟨x.num * y.num, x.den * y.den⟩

/-- JS `/` on numbers (exact; a zero divisor never occurs on the paths used
by the embedded code). -/
def JsNum.div (x y : JsNum) : JsNum := ⟨x.num * y.den, x.den * y.num⟩

/-- Negation of a `JsNum`. -/
def JsNum.neg (x : JsNum) : JsNum := ⟨-x.num, x.den⟩

/-- Whitespace characters recognised by the JavaScript regex class `\s` and by
`String.prototype.trim` (the common ASCII subset; the engine also accepts some
Unicode spaces that never occur in the repository's inputs). -/
def isJsWs (c : Char) : Bool :=
  c = ' ' ∨ c = '\t' ∨ c = '\n' ∨ c = '\r' ∨ c = '\x0b' ∨ c = '\x0c'

/-- JS `String.prototype.trim` on a character list. -/
def jsTrim (cs : List Char) : List Char :=
  ((cs.dropWhile isJsWs).reverse.dropWhile isJsWs).reverse

/-- Numeric value of a decimal digit character. -/
def digitVal (c : Char) : ℕ := c.toNat - 48

/-- Natural number denoted by a list of decimal digit characters. -/
def natOfDigits (ds : List Char) : ℕ :=
  ds.foldl (fun n c => 10 * n + digitVal c) 0

/-- Powers of ten in `ℤ`, written as a plain recursion so that closed terms
reduce in the kernel. -/
def pow10z : ℕ → ℤ
  | 0 => 1
  | n + 1 => 10 * pow10z n

/-- Exponent part of a JS float literal (after the `e`/`E`): optional sign and
digits.  A malformed exponent is ignored by `parseFloat`, yielding exponent 0. -/
def readExp (cs : List Char) : ℤ :=
  let p : ℤ × List Char :=
    match cs with
    | '-' :: rest => (-1, rest)
    | '+' :: rest => (1, rest)
    | _ => (1, cs)
  let ds := p.2.takeWhile Char.isDigit
  if ds.isEmpty then 0 else p.1 * (natOfDigits ds : ℤ)

/-- JS `parseFloat` on a character list: skip leading whitespace, read an
optional sign, a decimal mantissa (`digits`, `digits.digits` or `.digits`) and
an optional exponent, ignoring all trailing characters.  `none` models `NaN`
(no digits found).  `Infinity` literals are outside this fractional model.
The mantissa `a.b` denotes the fraction `(a·10^k + b) / 10^k` with `k` the
number of fractional digits. -/
def jsParseFloatCore (s : List Char) : Option JsNum :=
  let cs := s.dropWhile isJsWs
  let sp : ℤ × List Char :=
    match cs with
    | '-' :: rest => (-1, rest)
    | '+' :: rest => (1, rest)
    | _ => (1, cs)
  let intDigits := sp.2.takeWhile Char.isDigit
  let cs1 := sp.2.drop intDigits.length
  let fp : List Char × List Char :=
    match cs1 with
    | '.' :: rest => (rest.takeWhile Char.isDigit, rest.drop (rest.takeWhile Char.isDigit).length)
    | _ => ([], cs1)
  if intDigits.isEmpty ∧ fp.1.isEmpty then none
  else
    let k := fp.1.length
    let mantNum : ℤ := (natOfDigits intDigits : ℤ) * pow10z k + (natOfDigits fp.1 : ℤ)
    let expo : ℤ :=
      match fp.2 with
      | 'e' :: rest => readExp rest
      | 'E' :: rest => readExp rest
      | _ => 0
    if 0 ≤ expo then some ⟨sp.1 * mantNum * pow10z expo.toNat, pow10z k⟩
    else some ⟨sp.1 * mantNum, pow10z k * pow10z (-expo).toNat⟩

/-- JS `parseFloat` on a string. -/
def jsParseFloat (s : String) : Option JsNum :=
  jsParseFloatCore s.toList

/-- Maximal non-whitespace chunks of a character list, in order (no empty
chunks).  Helper for the JS `split(/\s+/)` model. -/
def wsTokens (cs : List Char) : List (List Char) :=
  let p := cs.foldr
    (fun c acc =>
      if isJsWs c then (if acc.2.isEmpty then acc else (acc.2 :: acc.1, []))
      else (acc.1, c :: acc.2))
    (([] : List (List Char)), ([] : List Char))
  if p.2.isEmpty then p.1 else p.2 :: p.1

/-- JS `String.prototype.split(/\s+/)`: splits on whitespace runs.  A leading
(resp. trailing) whitespace run contributes a leading (resp. trailing) empty
element, and the empty string splits to `[""]`, exactly as in JavaScript. -/
def jsWsSplit (cs : List Char) : List (List Char) :=
  match cs with
  | [] => [[]]
  | c :: rest =>
    let toks := wsTokens (c :: rest)
    let toks := if isJsWs c then [] :: toks else toks
    if isJsWs ((c :: rest).getLast (by simp)) then toks ++ [[]] else toks

/-- Collapse every run of `:` characters into a single space: the JS
`replace(/:+/g, " ")` step of the coordinate parsers, folded from the right
(the boolean tracks whether the neighbour to the right was a colon). -/
def collapseColons (cs : List Char) : List Char :=
  (cs.foldr
    (fun c acc =>
      if c = ':' then (if acc.2 then acc.1 else ' ' :: acc.1, true)
      else (c :: acc.1, false))
    (([] : List Char), false)).1

/-- Parse Right Ascension text into decimal degrees
(`parseRAtoDeg`, app_scripts.js lines 243-259).  The HMS branch is taken when
the string contains one of `h m s H M S :` or splits into exactly 3
whitespace-separated tokens without a colon; otherwise the string is parsed as
decimal degrees.  Errors model the thrown `Error("Cannot parse RA: ...")`. -/
def parseRAtoDeg (s : String) : Except String JsNum :=
  let cs := s.toList
  if cs.any (fun c => c = 'h' ∨ c = 'm' ∨ c = 's' ∨ c = 'H' ∨ c = 'M' ∨ c = 'S' ∨ c = ':')
      ∨ ((jsWsSplit cs).length = 3 ∧ ¬ cs.contains ':') then
    let cleaned := jsTrim (collapseColons (cs.map (fun c =>
      if c = 'h' ∨ c = 'm' ∨ c = 's' ∨ c = 'H' ∨ c = 'M' ∨ c = 'S' then ' ' else c)))
    let parts := jsWsSplit cleaned
    if parts.length < 3 then .error ("Cannot parse RA: " ++ s)
    else
      match jsParseFloatCore (parts.getD 0 []), jsParseFloatCore (parts.getD 1 []),
          jsParseFloatCore (parts.getD 2 []) with
      | some h, some m, some sec =>
        .ok (((h.add (m.div (JsNum.ofInt 60))).add (sec.div (JsNum.ofInt 3600))).mul
          (JsNum.ofInt 15))
      | _, _, _ => .error ("Cannot parse RA: " ++ s)
  else
    match jsParseFloatCore cs with
    | some v => .ok v
    | none => .error ("Cannot parse RA: " ++ s)

/-- Remove the first occurrence of the degree sign: the JS
`s.replace("°", "")` (string pattern, hence first occurrence only). -/
def removeFirstDegreeSign : List Char → List Char
  | [] => []
  | c :: rest => if c = '°' then rest else c :: removeFirstDegreeSign rest

/-- Parse Declination text into decimal degrees
(`parseDECtoDeg`, app_scripts.js lines 269-299).  First tries `parseFloat` on
the string with the first degree sign removed; only if that yields `NaN` does
it fall back to the DMS route (strip `° d D m M s S ' "`, collapse colons,
split, signed degrees token).  Errors model `Error("Cannot parse Dec: ...")`. -/
def parseDECtoDeg (s : String) : Except String JsNum :=
  let cs := jsTrim s.toList
  match jsParseFloatCore (removeFirstDegreeSign cs) with
  | some v => .ok v
  | none =>
    let cleaned := jsTrim (collapseColons (cs.map (fun c =>
      if c = '°' ∨ c = 'd' ∨ c = 'D' ∨ c = 'm' ∨ c = 'M' ∨ c = 's' ∨ c = 'S'
          ∨ c = '\'' ∨ c = '"' then ' ' else c)))
    let parts := jsWsSplit cleaned
    if parts.length < 3 then .error ("Cannot parse Dec: " ++ s)
    else
      let degPart0 := parts.getD 0 []
      let sdp : ℤ × List Char :=
        match degPart0 with
        | '+' :: rest => (1, rest)
        | '-' :: rest => (-1, rest)
        | _ => (1, degPart0)
      match jsParseFloatCore sdp.2, jsParseFloatCore (parts.getD 1 []),
          jsParseFloatCore (parts.getD 2 []) with
      | some d, some m, some sec =>
        .ok ((JsNum.ofInt sdp.1).mul ((d.add (m.div (JsNum.ofInt 60))).add
          (sec.div (JsNum.ofInt 3600))))
      | _, _, _ => .error ("Cannot parse Dec: " ++ s)

/-- A cell of the scheduling-block ledger as read from the sheet: either a
valid `Date` (its epoch milliseconds) or any other content, with `text ""`
for an empty cell.  The guard `cell instanceof Date && !isNaN(cell.getTime())`
of `clearExpiredBlocks` is the `date` case. -/
inductive LCell where
  | date (ms : ℤ)
  | text (s : String)
deriving DecidableEq

/-- A row of the Lookup sheet's scheduling-block ledger: column AK (37) holds
the dish identifier written by `updateConsumedBlocks`, column AL (38) the
block-start `Date`.  Index 0 of a ledger list corresponds to sheet row 2, the
first data row. -/
structure LRow where
  ak : String
  al : LCell
deriving DecidableEq

/-- The 5-day retention window of `clearExpiredBlocks` in milliseconds
(`5 * 24 * 60 * 60 * 1000`, line 794). -/
def retentionMs : ℤ := 5 * 24 * 60 * 60 * 1000

/-- Step 1 of `clearExpiredBlocks` on one column-AL cell (lines 799-811): a
valid `Date` earlier than the cutoff is blanked (`values[i][0] = ""`); every
other cell is left unchanged. -/
def clearCell (cutoff : ℤ) : LCell → LCell
  | .date ms => if ms < cutoff then .text "" else .date ms
  | .text s => .text s

/-- `clearExpiredBlocks` (app_scripts.js lines 779-822) on the ledger: the
function reads column AL only from `startRow = 3` (list index 1) to the last
row, blanks the expired `Date` cells in the array, clears the range and writes
the same array back at the same rows.  Row 2 (list index 0) is never read or
written, and column AK is never touched. -/
def clearExpiredBlocks (now : ℤ) : List LRow → List LRow
  | [] => []
  | r0 :: rest => r0 :: rest.map (fun r => ⟨r.ak, clearCell (now - retentionMs) r.al⟩)

/-- The backward scan of `updateConsumedBlocks` (lines 753-764) for the last
row whose column-AK cell is non-empty, as an index into the ledger list
(index 0 = sheet row 2).  Folding upward keeping the last hit is equivalent to
the source's bottom-up search for the first hit. -/
def findLastUsed (L : List LRow) : Option ℕ :=
  (List.range L.length).foldl
    (fun acc i => if (L.getD i ⟨"", .text ""⟩).ak ≠ "" then some i else acc) none

/-- The list index at which `updateConsumedBlocks` starts writing
(`writeRow = lastUsed + 1`, default sheet row 2 = index 0). -/
def writeIdx (L : List LRow) : ℕ :=
  match findLastUsed L with
  | none => 0
  | some i => i + 1

/-- The rows built by `updateConsumedBlocks` (lines 743-746): one
`[dsh_id, new Date(start + i*blockMS)]` pair per consumed block. -/
def buildBlockRows (dshId : String) (startMs blockMs : ℤ) (blocks : ℕ) : List LRow :=
  (List.range blocks).map (fun i => ⟨dshId, .date (startMs + (i : ℤ) * blockMs)⟩)

/-- The `setValues(writeRow, 37, rows.length, 2)` write of
`updateConsumedBlocks` (line 767): overwrite the rows starting at `writeIdx`,
extending the sheet below its current last row if needed. -/
def appendRows (L rows : List LRow) : List LRow :=
  L.take (writeIdx L) ++ rows ++ L.drop (writeIdx L + rows.length)

/-- The block-count computation of `updateConsumedBlocks` (lines 724-741):
validates the block size (`blockSizeMin <= 0` throws) and the time span
(`durationMS <= 0` throws), then returns
`Math.ceil(durationMS / blockMS - 1e-9)`.  Timestamps are epoch milliseconds;
the `Date`-validity guard of the source is modelled by the integer input
type. -/
def updateConsumedBlocksCount (startMs endMs : ℤ) (blockSizeMin : ℚ) : Except String ℤ :=
  if blockSizeMin ≤ 0 then .error "Invalid scheduling block size."
  else
    let blockMS : ℚ := blockSizeMin * 60 * 1000
    let durationMS : ℚ := (endMs : ℚ) - (startMs : ℚ)
    if durationMS ≤ 0 then .error "End datetime must be after start datetime."
    else .ok ⌈durationMS / blockMS - 1 / 1000000000⌉

/-- Decidable equality for `Except` results, so that closed evaluations of the
embedded fallible functions can be checked by `decide`. -/
def exceptDecEq {e a : Type} [DecidableEq e] [DecidableEq a] : DecidableEq (Except e a)
  | .error x, .error y => if h : x = y then .isTrue (by rw [h]) else .isFalse (by simp [h])
  | .error _, .ok _ => .isFalse (by simp)
  | .ok _, .error _ => .isFalse (by simp)
  | .ok x, .ok y => if h : x = y then .isTrue (by rw [h]) else .isFalse (by simp [h])

instance {e a : Type} [DecidableEq e] [DecidableEq a] : DecidableEq (Except e a) :=
  exceptDecEq

/-- A JSON-ish value as manipulated by `generateJSON` and the submission
handler: numbers, the distinguished `NaN`, strings, `Date` objects (epoch
milliseconds) and objects with ordered fields. -/
inductive JSVal where
  | num (x : JsNum)
  | nan
  | str (s : String)
  | date (ms : ℤ)
  | obj (fields : List (String × JSVal))

/-- A JavaScript object: ordered association list of fields. -/
abbrev JSObj := List (String × JSVal)

/-- JS property read `o[key]` (keys in a JS object are unique, the first
match is the only one). -/
def lookupKey : JSObj → String → Option JSVal
  | [], _ => none
  | (k, v) :: rest, key => if k = key then some v else lookupKey rest key

/-- JS property write `o[key] = v`: overwrite in place, preserving insertion
order, or append a new field. -/
def setKey : JSObj → String → JSVal → JSObj
  | [], key, v => [(key, v)]
  | (k, w) :: rest, key, v =>
    if k = key then (k, v) :: rest else (k, w) :: setKey rest key v

/-- JS `delete o.key`. -/
def deleteKey : JSObj → String → JSObj
  | [], _ => []
  | (k, w) :: rest, key => if k = key then rest else (k, w) :: deleteKey rest key

/-- The `keyCount` map of `generateJSON`.  Counts are JS numbers that are only
ever non-negative integers or `NaN`; `none` models `NaN`, an absent key models
`undefined`. -/
abbrev KeyCounts := List (String × Option ℕ)

/-- Read of `keyCount[key]`: `none` = `undefined`, `some none` = `NaN`. -/
def kcLookup : KeyCounts → String → Option (Option ℕ)
  | [], _ => none
  | (k, c) :: rest, key => if k = key then some c else kcLookup rest key

/-- Write of `keyCount[key]`. -/
def kcSet : KeyCounts → String → Option ℕ → KeyCounts
  | [], key, c => [(key, c)]
  | (k, c0) :: rest, key, c =>
    if k = key then (k, c) :: rest else (k, c0) :: kcSet rest key c

/-- Key normalization of `generateJSON` (line 979, also `getJSONKey`):
`toLowerCase()` then `replace(/ /g, "_")` (spaces only, not all whitespace). -/
def getJSONKey (keyText : String) : String :=
  String.mk ((keyText.toList.map Char.toLower).map (fun c => if c = ' ' then '_' else c))

/-- A character matchable by the JS regex `.` (no `/s` flag): anything except
a line terminator.  The Unicode separators U+2028/U+2029 never occur in the
repository's inputs and are omitted. -/
def isDotChar (c : Char) : Bool := ¬ (c = '\n' ∨ c = '\r')

/-- The `.*?dec:(.+)$` tail of the ICRS regexes (lines 1035 and 1093): lazily
scan, through `.`-matchable characters, for the first occurrence of `"dec:"`
whose remainder is non-empty and free of line terminators; that remainder is
the greedy `(.+)` capture (`$` in JS matches only at the very end). -/
def findDec : List Char → Option (List Char)
  | [] => none
  | c :: rest =>
    if ['d', 'e', 'c', ':'].isPrefixOf (c :: rest) ∧ (c :: rest).drop 4 ≠ []
        ∧ ((c :: rest).drop 4).all isDotChar then
      some ((c :: rest).drop 4)
    else if isDotChar c then findDec rest else none

/-- After a matched `"ra:"`: the greedy `([^,]+)` capture runs exactly to the
first comma (`[^,]` cannot cross it) and must be non-empty; the comma is
consumed and the Dec tail is searched.  Failure here makes the enclosing lazy
scan resume at the next position, as regex backtracking does. -/
def matchRaTail (cs : List Char) : Option (List Char × List Char) :=
  let raCap := cs.takeWhile (fun c => c ≠ ',')
  if raCap.isEmpty then none
  else
    match cs.drop raCap.length with
    | ',' :: rest => (findDec rest).map (fun d => (raCap, d))
    | _ => none

/-- Matcher for `/^.*?ra:([^,]+),.*?dec:(.+)$/` (line 1035): the lazy `^.*?`
is a left-to-right scan over `.`-matchable characters for the first position
where the rest of the pattern matches. -/
def scanRA : List Char → Option (List Char × List Char)
  | [] => none
  | c :: rest =>
    match (if ['r', 'a', ':'].isPrefixOf (c :: rest) then matchRaTail ((c :: rest).drop 3)
      else none) with
    | some r => some r
    | none => if isDotChar c then scanRA rest else none

/-- The ICRS pattern of the `skycoord` handler on a string value. -/
def icrsMatch (s : String) : Option (String × String) :=
  (scanRA s.toList).map (fun p => (String.mk p.1, String.mk p.2))

/-- Greedy backtracking for the leading `(\S+)` of the `target` regex
(line 1093): try the longest non-whitespace prefix first, shrinking until the
rest of the pattern matches. -/
def tryIdLen (cs : List Char) : ℕ → Option (List Char × List Char × List Char)
  | 0 => none
  | k + 1 =>
    match scanRA (cs.drop (k + 1)) with
    | some (r, d) => some (cs.take (k + 1), r, d)
    | none => tryIdLen cs k

/-- Matcher for `/^(\S+).*?ra:([^,]+),.*?dec:(.+)$/` (line 1093). -/
def targetMatch (s : String) : Option (String × String × String) :=
  let cs := s.toList
  let w := cs.takeWhile (fun c => ¬ isJsWs c)
  if w.isEmpty then none
  else (tryIdLen cs w.length).map (fun t => (String.mk t.1, String.mk t.2.1, String.mk t.2.2))

/-- A `[+-]?[0-9.]+` token (the captures of the `altaz` regex, line 997):
optional sign, then a non-empty greedy run of digits and dots; the capture
includes the sign. -/
def signedNumToken (cs : List Char) : Option (List Char × List Char) :=
  let sp : List Char × List Char :=
    match cs with
    | '+' :: rest => (['+'], rest)
    | '-' :: rest => (['-'], rest)
    | _ => ([], cs)
  let run := sp.2.takeWhile (fun c => Char.isDigit c ∨ c = '.')
  if run.isEmpty then none
  else some (sp.1 ++ run, sp.2.drop run.length)

/-- The `.*?az:([+-]?[0-9.]+)` tail of the `altaz` regex: lazy scan for
`"az:"` followed by a signed number token (no end anchor). -/
def scanAz : List Char → Option (List Char)
  | [] => none
  | c :: rest =>
    match (if ['a', 'z', ':'].isPrefixOf (c :: rest) then
        (signedNumToken ((c :: rest).drop 3)).map Prod.fst
      else none) with
    | some az => some az
    | none => if isDotChar c then scanAz rest else none

/-- Matcher for `/^alt:([+-]?[0-9.]+).*?az:([+-]?[0-9.]+)/` (line 997). -/
def altazMatch (s : String) : Option (String × String) :=
  let cs := s.toList
  if ['a', 'l', 't', ':'].isPrefixOf cs then
    match signedNumToken (cs.drop 4) with
    | some (alt, rest) => (scanAz rest).map (fun az => (String.mk alt, String.mk az))
    | none => none
  else none

/-- Matcher for `/^l:([^,]+),\s*b:(.+)$/i` (line 1060): anchored, with the
greedy `[^,]+` running to the first comma, the whole whitespace run consumed
before `b:` (a shorter `\s*` would put a whitespace character where `b` is
expected), both letters case-insensitive, and a non-empty `(.+)$` remainder. -/
def galMatch (s : String) : Option (String × String) :=
  match s.toList with
  | l0 :: ':' :: rest =>
    if l0.toLower = 'l' then
      let lCap := rest.takeWhile (fun c => c ≠ ',')
      if lCap.isEmpty then none
      else
        match rest.drop lCap.length with
        | ',' :: rest2 =>
          (match rest2.dropWhile isJsWs with
           | b0 :: ':' :: bCap =>
             if b0.toLower = 'b' ∧ ¬ bCap.isEmpty ∧ bCap.all isDotChar then
               some (String.mk lCap, String.mk bCap)
             else none
           | _ => none)
        | _ => none
    else none
  | _ => none

/-- The `PointingType` enum wrapper produced by the target handlers. -/
def pointingEnum (v : String) : JSVal :=
  .obj [("_type", .str "enum.IntEnum"), ("instance", .str "PointingType"), ("value", .str v)]

/-- Zero-padded 2-digit decimal. -/
def pad2 (n : ℕ) : String := if n < 10 then "0" ++ toString n else toString n

/-- Zero-padded 3-digit decimal. -/
def pad3 (n : ℕ) : String :=
  if n < 10 then "00" ++ toString n else if n < 100 then "0" ++ toString n else toString n

/-- Zero-padded 4-digit year (negative years prefixed with a sign; the
repository only ever formats contemporary dates). -/
def pad4 (z : ℤ) : String :=
  if z < 0 then "-" ++ toString (-z)
  else if z < 10 then "000" ++ toString z
  else if z < 100 then "00" ++ toString z
  else if z < 1000 then "0" ++ toString z
  else toString z

/-- ISO-8601 UTC timestamp `yyyy-MM-ddTHH:mm:ss.sssZ` of an epoch-millisecond
value: the observable behaviour of the host builtin
`Date.prototype.toISOString`, on the proleptic Gregorian calendar (civil-from-
days conversion). -/
def isoString (ms : ℤ) : String :=
  let day := ms.fdiv 86400000
  let msOfDay := (ms - day * 86400000).toNat
  let z := day + 719468
  let era := z.fdiv 146097
  let doe := (z - era * 146097).toNat
  let yoe := (doe - doe / 1460 + doe / 36524 - doe / 146096) / 365
  let doy := doe - (365 * yoe + yoe / 4 - yoe / 100)
  let mp := (5 * doy + 2) / 153
  let dday := doy - (153 * mp + 2) / 5 + 1
  let m := if mp < 10 then mp + 3 else mp - 9
  let y : ℤ := (yoe : ℤ) + era * 400 + (if m ≤ 2 then 1 else 0)
  let hh := msOfDay / 3600000
  let mi := msOfDay % 3600000 / 60000
  let ss := msOfDay % 60000 / 1000
  let mss := msOfDay % 1000
  pad4 y ++ "-" ++ pad2 m ++ "-" ++ pad2 dday ++ "T" ++ pad2 hh ++ ":" ++ pad2 mi ++ ":"
    ++ pad2 ss ++ "." ++ pad3 mss ++ "Z"

/-- JS `Number(string)` (reached through `isNaN(value)` and `Number(...)`):
the whole whitespace-trimmed string must be a numeric literal, `some 0` for
the empty/whitespace string, `none` for `NaN`.  Hex/octal/binary and
`Infinity` literals never occur in the repository's inputs and are omitted. -/
def jsNumberOfString (s : String) : Option JsNum :=
  let cs := jsTrim s.toList
  if cs.isEmpty then some (JsNum.ofInt 0)
  else
    let sp : ℤ × List Char :=
      match cs with
      | '-' :: rest => (-1, rest)
      | '+' :: rest => (1, rest)
      | _ => (1, cs)
    let intDigits := sp.2.takeWhile Char.isDigit
    let cs1 := sp.2.drop intDigits.length
    let fp : List Char × List Char :=
      match cs1 with
      | '.' :: rest => (rest.takeWhile Char.isDigit, rest.drop (rest.takeWhile Char.isDigit).length)
      | _ => ([], cs1)
    if intDigits.isEmpty ∧ fp.1.isEmpty then none
    else
      let k := fp.1.length
      let mantNum : ℤ := (natOfDigits intDigits : ℤ) * pow10z k + (natOfDigits fp.1 : ℤ)
      match fp.2 with
      | [] => some ⟨sp.1 * mantNum, pow10z k⟩
      | e :: rest =>
        if e = 'e' ∨ e = 'E' then
          let ep : ℤ × List Char :=
            match rest with
            | '-' :: r2 => (-1, r2)
            | '+' :: r2 => (1, r2)
            | _ => (1, rest)
          let ds := ep.2.takeWhile Char.isDigit
          if ds.isEmpty ∨ (ep.2.drop ds.length) ≠ [] then none
          else
            let expo := ep.1 * (natOfDigits ds : ℤ)
            if 0 ≤ expo then some ⟨sp.1 * mantNum * pow10z expo.toNat, pow10z k⟩
            else some ⟨sp.1 * mantNum, pow10z k * pow10z (-expo).toNat⟩
        else none

/-- JS truthiness (`if (pointing)`): `0`, `NaN` and `""` are falsy; objects
and `Date`s are truthy. -/
def truthy : JSVal → Bool
  | .num x => ¬ x.num = 0
  | .nan => false
  | .str s => s ≠ ""
  | .date _ => true
  | .obj _ => true

/-- Whitespace runs to a single underscore: `replace(/\s+/g, "_")`, folded
from the right (the boolean tracks whether the right neighbour was
whitespace). -/
def wsRunsToUnderscore (cs : List Char) : List Char :=
  (cs.foldr
    (fun c acc =>
      if isJsWs c then (if acc.2 then acc.1 else '_' :: acc.1, true)
      else (c :: acc.1, false))
    (([] : List Char), false)).1

/-- `pointing.toUpperCase().replace(/\s+/g, "_")` (line 1144). -/
def upperSnake (s : String) : String :=
  String.mk (wsRunsToUnderscore (s.toList.map Char.toUpper))

/-- The per-row body of `generateJSON`'s loop (lines 977-1129), before the
duplicate-key step: key normalization, the skip of empty keys and `""` values,
the specialized `feed` / `altaz` / `solar_system` / `skycoord` / `target`
handlers (checked in that order), then `Date` → datetime wrapping and
numeric-string coercion.  Returns `none` when the row is skipped; the
`TypeError` cases model `value.match` on a non-string, and the parse errors of
`parseRAtoDeg`/`parseDECtoDeg` propagate. -/
def processRow (rawKey : String) (value : JSVal) : Except String (Option (String × JSVal)) :=
  let key := getJSONKey rawKey
  let isEmptyStr : Bool := match value with | .str s => s = "" | _ => false
  if key = "" ∨ isEmptyStr then .ok none
  else
    let handled : Except String (String × JSVal) :=
      if key = "feed" then
        .ok (key, .obj [("_type", .str "enum.IntEnum"), ("instance", .str "Feed"),
          ("value", value)])
      else if key = "altaz" then
        match value with
        | .str s =>
          match altazMatch s with
          | some (alt, az) =>
            .ok ("target", .obj [("_type", .str "TargetModel"),
              ("altaz", .obj [("alt", .str alt), ("az", .str az)]),
              ("pointing", pointingEnum "DRIFT_SCAN")])
          | none => .ok (key, .obj [])
        | _ => .error "TypeError: value.match is not a function"
      else if key = "solar_system" then
        .ok ("target", .obj [("_type", .str "TargetModel"), ("id", value),
          ("pointing", pointingEnum "NON_SIDEREAL_TRACK")])
      else if key = "skycoord" then
        match value with
        | .str s =>
          match icrsMatch s with
          | some (raTxt, decTxt) =>
            (match parseRAtoDeg raTxt with
             | .error e => .error e
             | .ok ra =>
               match parseDECtoDeg decTxt with
               | .error e => .error e
               | .ok dec =>
                 .ok ("target", .obj [("_type", .str "TargetModel"),
                   ("sky_coord", .obj [("_type", .str "SkyCoord"), ("frame", .str "icrs"),
                     ("ra", .num ra), ("dec", .num dec)]),
                   ("pointing", pointingEnum "SIDEREAL_TRACK")]))
          | none =>
            match galMatch s with
            | some (lTxt, bTxt) =>
              .ok ("target", .obj [("_type", .str "TargetModel"),
                ("sky_coord", .obj [("_type", .str "SkyCoord"), ("frame", .str "galactic"),
                  ("l", match jsParseFloat lTxt with | some q => .num q | none => .nan),
                  ("b", match jsParseFloat bTxt with | some q => .num q | none => .nan)]),
                ("pointing", pointingEnum "SIDEREAL_TRACK")])
            | none => .ok (key, .obj [])
        | _ => .error "TypeError: value.match is not a function"
      else if key = "target" then
        match value with
        | .str s =>
          match targetMatch s with
          | some (tid, raTxt, decTxt) =>
            (match parseRAtoDeg raTxt with
             | .error e => .error e
             | .ok ra =>
               match parseDECtoDeg decTxt with
               | .error e => .error e
               | .ok dec =>
                 .ok ("target", .obj [("_type", .str "TargetModel"),
                   ("sky_coord", .obj [("_type", .str "SkyCoord"), ("frame", .str "icrs"),
                     ("ra", .num ra), ("dec", .num dec)]),
                   ("id", .str tid),
                   ("pointing", pointingEnum "SIDEREAL_TRACK")]))
          | none => .ok (key, .obj [])
        | _ => .error "TypeError: value.match is not a function"
      else .ok (key, value)
    match handled with
    | .error e => .error e
    | .ok (k, v) =>
      let v2 : JSVal :=
        match v with
        | .date ms => .obj [("_type", .str "datetime"), ("value", .str (isoString ms))]
        | .str s =>
          if jsTrim s.toList ≠ [] ∧ (jsNumberOfString s).isSome then
            .num ((jsNumberOfString s).getD (JsNum.ofInt 0))
          else .str s
        | w => w
      .ok (some (k, v2))

/-- One duplicate-key insertion of `generateJSON` (lines 1131-1136).  The code
increments the count of the *suffixed* key, not of the base key:
`keyCount[finalKey] = keyCount[finalKey] || 0` (`undefined` and `NaN` are
falsy), then the suffix test, then `keyCount[finalKey]++` on the possibly
reassigned `finalKey` (incrementing `undefined` or `NaN` gives `NaN`). -/
def insertDupKey (st : JSObj × KeyCounts) (key : String) (v : JSVal) : JSObj × KeyCounts :=
  let c0 : ℕ :=
    match kcLookup st.2 key with
    | none => 0
    | some none => 0
    | some (some n) => n
  let kc1 := kcSet st.2 key (some c0)
  let finalKey := if 0 < c0 then key ++ "_" ++ toString c0 else key
  let kc2 :=
    kcSet kc1 finalKey
      (match kcLookup kc1 finalKey with
       | none => none
       | some none => none
       | some (some n) => some (n + 1))
  (setKey st.1 finalKey v, kc2)

/-- The assembly loop of `generateJSON` over the flattened `(label, value)`
rows of the requested ranges. -/
def buildObjGo : List (String × JSVal) → JSObj × KeyCounts → Except String (JSObj × KeyCounts)
  | [], st => .ok st
  | row :: rest, st =>
    match processRow row.1 row.2 with
    | .error e => .error e
    | .ok none => buildObjGo rest st
    | .ok (some (k, v)) => buildObjGo rest (insertDupKey st k v)

/-- The object built by `generateJSON` before the pointing epilogue, including
the optional `_type` tag set before the loop (lines 970-973: the tag is
written directly, bypassing the duplicate-key counters). -/
def buildObj (rows : List (String × JSVal)) (type : String) : Except String JSObj :=
  let init : JSObj := if type = "" then [] else [("_type", JSVal.str type)]
  match buildObjGo rows (init, ([] : KeyCounts)) with
  | .ok st => .ok st.1
  | .error e => .error e

/-- The pointing-override epilogue of `generateJSON` (lines 1140-1146):
`var t = jsonObj.target; var pointing = jsonObj.pointing; if (pointing) {
t.pointing.value = ...; delete jsonObj.pointing; }`.  JS evaluates
`t.pointing` first (a `TypeError` when `t` is `undefined`), then the
right-hand side (`pointing.toUpperCase` is a `TypeError` on a non-string),
then assigns — a `TypeError` when `t.pointing` is `undefined`, a silent
sloppy-mode no-op when it is a primitive. -/
def finalizePointing (o : JSObj) : Except String JSObj :=
  match lookupKey o "pointing" with
  | none => .ok o
  | some p =>
    if truthy p then
      match lookupKey o "target" with
      | none => .error "TypeError: Cannot read properties of undefined (reading pointing)"
      | some (.obj tf) =>
        match lookupKey tf "pointing" with
        | some (.obj pf) =>
          match p with
          | .str ps =>
            .ok (deleteKey (setKey o "target"
              (.obj (setKey tf "pointing" (.obj (setKey pf "value" (.str (upperSnake ps))))))) "pointing")
          | _ => .error "TypeError: pointing.toUpperCase is not a function"
        | some _ =>
          match p with
          | .str _ => .ok (deleteKey o "pointing")
          | _ => .error "TypeError: pointing.toUpperCase is not a function"
        | none =>
          match p with
          | .str _ => .error "TypeError: Cannot set properties of undefined (setting value)"
          | _ => .error "TypeError: pointing.toUpperCase is not a function"
      | some _ =>
        match p with
        | .str _ => .error "TypeError: Cannot set properties of undefined (setting value)"
        | _ => .error "TypeError: pointing.toUpperCase is not a function"
    else .ok o

/-- `generateJSON` (app_scripts.js lines 966-1150) with `returnObject = true`:
the assembly loop followed by the pointing-override epilogue. -/
def generateJSON (rows : List (String × JSVal)) (type : String) : Except String JSObj :=
  match buildObj rows type with
  | .ok o => finalizePointing o
  | .error e => .error e

/-- A staged row of the DB TARGET LIST sheet as consumed by the Observation
submission handler (lines 585-623): `blank` for an empty cell (the falsy-text
early return), `malformed` for a cell whose text `JSON.parse` rejects or whose
parse result lacks usable `target`/`target_config` objects (the `catch` path
logs and skips it), and `valid` for a row carrying both objects.  `JSON.parse`
is a host builtin; the model records its outcome per row. -/
inductive StagedRow where
  | blank
  | malformed
  | valid (target : JSObj) (cfg : JSObj)

/-- `Number(target_config[key]) * 1e6` (line 613): numbers scale, numeric
strings coerce then scale, `Date`s convert to their milliseconds, everything
else becomes `NaN`. -/
def scaleField (v : JSVal) : JSVal :=
  match v with
  | .num x => .num (x.mul (JsNum.ofInt 1000000))
  | .str s =>
    match jsNumberOfString s with
    | some x => .num (x.mul (JsNum.ofInt 1000000))
    | none => .nan
  | .date ms => .num ((JsNum.ofInt ms).mul (JsNum.ofInt 1000000))
  | _ => .nan

/-- The frequency/rate fields scaled from MHz to Hz at submission (line 588). -/
def keysToScale : List String := ["center_freq", "bandwidth", "sample_rate"]

/-- The `keysToScale.forEach` of lines 611-615 on a target config. -/
def scaleKeys (cfg : JSObj) : JSObj :=
  keysToScale.foldl
    (fun c k =>
      match lookupKey c k with
      | some v => setKey c k (scaleField v)
      | none => c) cfg

/-- The `targetValues.forEach` of the submission handler (lines 590-622),
from row index `idx` on: a valid row's target and config both get
`tgt_idx = index` — the 0-based ROW index, which keeps counting across blank
and malformed rows — and `obs_id`, the config additionally the MHz→Hz
scaling; blank rows are skipped by the falsy check and malformed rows by the
`catch`, without aborting the loop. -/
def processStagedFrom (obsId : String) (idx : ℕ) : List StagedRow → List JSObj × List JSObj
  | [] => ([], [])
  | row :: rest =>
    let tail := processStagedFrom obsId (idx + 1) rest
    match row with
    | .blank => tail
    | .malformed => tail
    | .valid t c =>
      (setKey (setKey t "tgt_idx" (.num (JsNum.ofInt idx))) "obs_id" (.str obsId) :: tail.1,
       scaleKeys (setKey (setKey c "tgt_idx" (.num (JsNum.ofInt idx))) "obs_id" (.str obsId))
         :: tail.2)

/-- The (targets, target_configs) pair assembled from the staged rows by one
Observation submission. -/
def processStagedRows (obsId : String) (rows : List StagedRow) : List JSObj × List JSObj :=
  processStagedFrom obsId 0 rows

/-- The `tgt_idx` number carried by an assembled target, when present. -/
def tgtIdxOf (t : JSObj) : Option JsNum :=
  match lookupKey t "tgt_idx" with
  | some (.num x) => some x
  | _ => none

/-- `computeAltitudeDeg` (app_scripts.js lines 338-348): hour angle from LST
and RA, conversion to radians, `sinAlt` by the spherical triangle formula,
clamped into `[-1, 1]` before `asin`, result converted back to degrees. -/
noncomputable def computeAltitudeDeg (raDeg decDeg latDeg lstDeg : ℝ) : ℝ :=
  let hr := (lstDeg - raDeg) * Real.pi / 180
  let decR := decDeg * Real.pi / 180
  let latR := latDeg * Real.pi / 180
  let sinA := Real.sin latR * Real.sin decR + Real.cos latR * Real.cos decR * Real.cos hr
  Real.arcsin (max (-1) (min 1 sinA)) * 180 / Real.pi

/-- C1: for a signed sexagesimal declination string `±DD:MM:SS` the claim says
`parseDECtoDeg` returns `sign*(d + m/60 + s/3600)` (≈ ±12.391111° for
`±12:23:28`).  In the code the initial `parseFloat` try succeeds on such
strings (JS `parseFloat` stops at the first `:` and returns the degrees part),
so the function returns `±12` — the minutes and seconds are silently dropped,
contradicting the function's own doc comment, which lists `"+12:23:28"` as a
supported format.  This theorem evaluates the code at the failing inputs and
records that the result is far outside the claimed 1e-6 tolerance. -/
theorem parseDECtoDeg_truncates_sexagesimal :
    parseDECtoDeg "+12:23:28" = .ok ⟨12, 1⟩ ∧
    parseDECtoDeg "-12:23:28" = .ok ⟨-12, 1⟩ ∧
    JsNum.val ⟨12, 1⟩ = 12 ∧ JsNum.val ⟨-12, 1⟩ = -12 ∧
    ¬ |(12 : ℚ) - (12 + 23 / 60 + 28 / 3600)| < 1 / 1000000 := by
  refine ⟨rfl, rfl, by norm_num [JsNum.val], by norm_num [JsNum.val], ?_⟩
  rw [abs_lt]
  push_neg
  norm_num

/-- Blanking an expired cell is idempotent: a blanked cell is no longer a
`Date`, and an unexpired `Date` stays unexpired under the same cutoff. -/
theorem clearCell_idem (cutoff : ℤ) (c : LCell) :
    clearCell cutoff (clearCell cutoff c) = clearCell cutoff c := by
  cases c with
  | date ms =>
    by_cases h : ms < cutoff
    · simp [clearCell, h]
    · simp [clearCell, h]
  | text s => rfl

/-- C8: running `clearExpiredBlocks` twice with the same "now" produces a
ledger identical to running it once. -/
theorem clearExpiredBlocks_idempotent (now : ℤ) (L : List LRow) :
    clearExpiredBlocks now (clearExpiredBlocks now L) = clearExpiredBlocks now L := by
  cases L with
  | nil => rfl
  | cons r0 rest =>
    simp only [clearExpiredBlocks, List.map_map, List.cons.injEq, true_and]
    apply List.map_congr_left
    intro r _
    simp [Function.comp, clearCell_idem]

/-- C4: the claim says expired entries are removed and the remaining entries
are rewritten contiguously from the ledger's start, leaving no gaps.  The
code's own doc comment promises the same ("then compacts the remaining
entries upward to remove gaps"), but the function only blanks expired cells
in place and writes the array back at the same rows: with "now" = 864000000 ms
(cutoff 432000000 ms after subtracting the 5-day retention), the expired entry
at index 1 becomes a blank *gap* while the surviving entry stays at index 2
instead of moving up. -/
theorem clearExpiredBlocks_no_compaction :
    clearExpiredBlocks 864000000
        [⟨"", .text ""⟩, ⟨"DSH1", .date 0⟩, ⟨"DSH1", .date 800000000⟩] =
      [⟨"", .text ""⟩, ⟨"DSH1", .text ""⟩, ⟨"DSH1", .date 800000000⟩] ∧
    (0 : ℤ) < 864000000 - retentionMs ∧ ¬ ((800000000 : ℤ) < 864000000 - retentionMs) := by
  refine ⟨rfl, by decide, by decide⟩

/-- C10: `updateConsumedBlocks` writes its first block entry at the ledger's
first data position (sheet row 2, index 0) when the ledger is empty, while
`clearExpiredBlocks` reads only from `startRow = 3` (index 1) on: the entry at
the first data position is preserved by every expiry run, for every ledger
state and every "now" — regardless of the entry's age. -/
theorem expiry_never_touches_first_ledger_row (dshId : String) (startMs blockMs : ℤ)
    (n : ℕ) (now : ℤ) (M : List LRow) :
    (appendRows [] (buildBlockRows dshId startMs blockMs (n + 1))).head? =
      some ⟨dshId, .date startMs⟩ ∧
    (clearExpiredBlocks now M).head? = M.head? := by
  constructor
  · simp [appendRows, writeIdx, findLastUsed, buildBlockRows, List.range_succ_eq_map]
  · cases M with
    | nil => rfl
    | cons r0 rest => rfl

/-- C5: the block count equals `⌈durationMs/blockMs - 1e-9⌉` whenever
`end > start` and `blockSizeMinutes > 0`; a 70-minute span with 30-minute
blocks yields 3 and a 60-minute span yields exactly 2; `end ≤ start` and
`blockSizeMinutes ≤ 0` raise the validation errors (when both are violated the
code raises the block-size error first). -/
theorem updateConsumedBlocks_count_spec (startMs endMs : ℤ) (blockSizeMin : ℚ) :
    (startMs < endMs → 0 < blockSizeMin →
      updateConsumedBlocksCount startMs endMs blockSizeMin =
        .ok ⌈((endMs : ℚ) - (startMs : ℚ)) / (blockSizeMin * 60 * 1000) - 1 / 1000000000⌉) ∧
    (endMs ≤ startMs → 0 < blockSizeMin →
      updateConsumedBlocksCount startMs endMs blockSizeMin =
        .error "End datetime must be after start datetime.") ∧
    (blockSizeMin ≤ 0 →
      updateConsumedBlocksCount startMs endMs blockSizeMin =
        .error "Invalid scheduling block size.") ∧
    updateConsumedBlocksCount 0 4200000 30 = .ok 3 ∧
    updateConsumedBlocksCount 0 3600000 30 = .ok 2 := by
  refine ⟨?_, ?_, ?_, ?_, ?_⟩
  · intro h1 h2
    have hb : ¬ blockSizeMin ≤ 0 := not_le.mpr h2
    have hd : ¬ ((endMs : ℚ) - (startMs : ℚ) ≤ 0) := by
      rw [sub_nonpos, not_le]
      exact_mod_cast h1
    simp [updateConsumedBlocksCount, hb, hd]
  · intro h1 h2
    have hb : ¬ blockSizeMin ≤ 0 := not_le.mpr h2
    have hd : (endMs : ℚ) - (startMs : ℚ) ≤ 0 := by
      rw [sub_nonpos]
      exact_mod_cast h1
    simp [updateConsumedBlocksCount, hb, hd]
  · intro h
    simp [updateConsumedBlocksCount, h]
  · norm_num [updateConsumedBlocksCount]
    rw [Int.ceil_eq_iff]
    constructor <;> norm_num
  · norm_num [updateConsumedBlocksCount]
    rw [Int.ceil_eq_iff]
    constructor <;> norm_num

/-- Witness for C5 at concrete inputs: a 70-minute observation with 30-minute
blocks, an inverted time range, and a non-positive block size. -/
theorem updateConsumedBlocks_count_spec_witness :
    updateConsumedBlocksCount 0 4200000 30 =
      .ok ⌈(((4200000 : ℤ) : ℚ) - ((0 : ℤ) : ℚ)) / ((30 : ℚ) * 60 * 1000) - 1 / 1000000000⌉ ∧
    updateConsumedBlocksCount 100 0 30 = .error "End datetime must be after start datetime." ∧
    updateConsumedBlocksCount 0 100 0 = .error "Invalid scheduling block size." :=
  ⟨(updateConsumedBlocks_count_spec 0 4200000 30).1 (by decide) (by norm_num),
   (updateConsumedBlocks_count_spec 100 0 30).2.1 (by decide) (by norm_num),
   (updateConsumedBlocks_count_spec 0 100 0).2.2.1 (by norm_num)⟩

/-- C2: the claim says the n-th repetition of a normalized key is stored
under `key_n` (`_1`, `_2`, … in encounter order) with no overwriting, and the
function's own doc comment promises "suffixing _1, _2, etc.".  The two-
occurrence example of the claim does hold, but because the loop increments the
count of the *suffixed* key instead of the base key, the base count never
reaches 2: a third `"Gain"` row is routed to `gain_1` again, overwriting the
second value — `gain_2` is never created. -/
theorem generateJSON_duplicate_keys :
    generateJSON [("Gain", .num ⟨10, 1⟩), ("Gain", .num ⟨20, 1⟩)] "" =
      .ok [("gain", .num ⟨10, 1⟩), ("gain_1", .num ⟨20, 1⟩)] ∧
    generateJSON [("Gain", .num ⟨10, 1⟩), ("Gain", .num ⟨20, 1⟩), ("Gain", .num ⟨30, 1⟩)] "" =
      .ok [("gain", .num ⟨10, 1⟩), ("gain_1", .num ⟨30, 1⟩)] :=
  ⟨rfl, rfl⟩

/-- C9: when the assembled field set carries a truthy `pointing` override but
no field handler produced a `target` entry, the epilogue's `t.pointing` read
dereferences `undefined` and `generateJSON` throws instead of returning a
document. -/
theorem generateJSON_pointing_without_target (rows : List (String × JSVal)) (ty : String)
    (o : JSObj) (p : JSVal) (hb : buildObj rows ty = .ok o)
    (hp : lookupKey o "pointing" = some p) (htr : truthy p = true)
    (ht : lookupKey o "target" = none) :
    generateJSON rows ty =
      .error "TypeError: Cannot read properties of undefined (reading pointing)" := by
  unfold generateJSON
  rw [hb]
  show finalizePointing o = _
  simp only [finalizePointing, hp, ht, htr, if_true]

/-- Witness for C9: a single staged field labelled `Pointing` with the
free-text value `"drift scan"` and no target field. -/
theorem generateJSON_pointing_without_target_witness :
    generateJSON [("Pointing", .str "drift scan")] "" =
      .error "TypeError: Cannot read properties of undefined (reading pointing)" :=
  generateJSON_pointing_without_target [("Pointing", .str "drift scan")] ""
    [("pointing", .str "drift scan")] (.str "drift scan") rfl rfl rfl rfl

/-- C6 counterexample: the `skycoord` handler accepts `"ra:400, dec:95"` and
constructs an ICRS SkyCoordinate with `ra = 400` and `dec = 95` — no range
validation or normalization is applied, so the data-model invariant
`ra ∈ [0,360)`, `dec ∈ [-90,90]` is violated by the assembled document. -/
theorem skycoord_invariant_counterexample :
    generateJSON [("SkyCoord", .str "ra:400, dec:95")] "" =
      .ok [("target", .obj [("_type", .str "TargetModel"),
        ("sky_coord", .obj [("_type", .str "SkyCoord"), ("frame", .str "icrs"),
          ("ra", .num ⟨400, 1⟩), ("dec", .num ⟨95, 1⟩)]),
        ("pointing", pointingEnum "SIDEREAL_TRACK")])] ∧
    ¬ (JsNum.val ⟨400, 1⟩ < 360) ∧ ¬ (JsNum.val ⟨95, 1⟩ ≤ 90) := by
  refine ⟨rfl, ?_, ?_⟩ <;> norm_num [JsNum.val]

/-- C6 (amended): every ICRS SkyCoordinate constructed by the `skycoord` or
`target` handlers carries `ra` and `dec` exactly as returned by
`parseRAtoDeg`/`parseDECtoDeg` on the matched text, unvalidated; the invariant
`dec ∈ [-90,90] ∧ ra ∈ [0,360)` therefore holds exactly when the input text
itself encodes in-range values. -/
theorem icrs_handlers_pass_parsers_through (s1 s2 raTxt1 decTxt1 tid raTxt2 decTxt2 : String)
    (ra1 dec1 ra2 dec2 : JsNum)
    (hm1 : icrsMatch s1 = some (raTxt1, decTxt1))
    (hra1 : parseRAtoDeg raTxt1 = .ok ra1) (hdec1 : parseDECtoDeg decTxt1 = .ok dec1)
    (hm2 : targetMatch s2 = some (tid, raTxt2, decTxt2))
    (hra2 : parseRAtoDeg raTxt2 = .ok ra2) (hdec2 : parseDECtoDeg decTxt2 = .ok dec2) :
    processRow "skycoord" (.str s1) =
      .ok (some ("target", .obj [("_type", .str "TargetModel"),
        ("sky_coord", .obj [("_type", .str "SkyCoord"), ("frame", .str "icrs"),
          ("ra", .num ra1), ("dec", .num dec1)]),
        ("pointing", pointingEnum "SIDEREAL_TRACK")])) ∧
    processRow "target" (.str s2) =
      .ok (some ("target", .obj [("_type", .str "TargetModel"),
        ("sky_coord", .obj [("_type", .str "SkyCoord"), ("frame", .str "icrs"),
          ("ra", .num ra2), ("dec", .num dec2)]),
        ("id", .str tid),
        ("pointing", pointingEnum "SIDEREAL_TRACK")])) := by
  have hs1 : ¬ (s1 = "") := by
    intro h
    subst h
    simp [icrsMatch, scanRA] at hm1
  have hs2 : ¬ (s2 = "") := by
    intro h
    subst h
    simp [targetMatch] at hm2
  constructor
  · simp +decide [processRow, hm1, hra1, hdec1, hs1]
  · simp +decide [processRow, hm2, hra2, hdec2, hs2]

/-- Witness for C6: a `skycoord` row `"ra:111.7165, dec:-29.7725"` and a
`target` row `"M31 ra:10.6847, dec:41.2687"`; both parsed coordinate pairs
lie inside the data-model ranges, so these assembled coordinates do satisfy
the invariant. -/
theorem icrs_handlers_pass_parsers_through_witness :
    processRow "skycoord" (.str "ra:111.7165, dec:-29.7725") =
      .ok (some ("target", .obj [("_type", .str "TargetModel"),
        ("sky_coord", .obj [("_type", .str "SkyCoord"), ("frame", .str "icrs"),
          ("ra", .num ⟨1117165, 10000⟩), ("dec", .num ⟨-297725, 10000⟩)]),
        ("pointing", pointingEnum "SIDEREAL_TRACK")])) ∧
    processRow "target" (.str "M31 ra:10.6847, dec:41.2687") =
      .ok (some ("target", .obj [("_type", .str "TargetModel"),
        ("sky_coord", .obj [("_type", .str "SkyCoord"), ("frame", .str "icrs"),
          ("ra", .num ⟨106847, 10000⟩), ("dec", .num ⟨412687, 10000⟩)]),
        ("id", .str "M31"),
        ("pointing", pointingEnum "SIDEREAL_TRACK")])) ∧
    (0 ≤ JsNum.val ⟨1117165, 10000⟩ ∧ JsNum.val ⟨1117165, 10000⟩ < 360 ∧
      -90 ≤ JsNum.val ⟨-297725, 10000⟩ ∧ JsNum.val ⟨-297725, 10000⟩ ≤ 90) ∧
    (0 ≤ JsNum.val ⟨106847, 10000⟩ ∧ JsNum.val ⟨106847, 10000⟩ < 360 ∧
      -90 ≤ JsNum.val ⟨412687, 10000⟩ ∧ JsNum.val ⟨412687, 10000⟩ ≤ 90) := by
  have h := icrs_handlers_pass_parsers_through "ra:111.7165, dec:-29.7725"
    "M31 ra:10.6847, dec:41.2687" "111.7165" "-29.7725" "M31" "10.6847" "41.2687"
    ⟨1117165, 10000⟩ ⟨-297725, 10000⟩ ⟨106847, 10000⟩ ⟨412687, 10000⟩
    (by decide) (by decide) (by decide) (by decide) (by decide) (by decide)
  refine ⟨h.1, h.2, ?_, ?_⟩ <;>
    refine ⟨by norm_num [JsNum.val], by norm_num [JsNum.val], by norm_num [JsNum.val],
      by norm_num [JsNum.val]⟩

/-- Reading a key after a JS property write: the written key returns the new
value, any other key is unaffected. -/
theorem lookupKey_setKey (o : JSObj) (k k2 : String) (v : JSVal) :
    lookupKey (setKey o k v) k2 = if k2 = k then some v else lookupKey o k2 := by
  induction o with
  | nil =>
    by_cases h : k2 = k
    · subst h
      simp [setKey, lookupKey]
    · have h2 : ¬ k = k2 := fun hh => h (Eq.symm hh)
      simp [setKey, lookupKey, h, h2]
  | cons kv rest ih =>
    obtain ⟨k0, w⟩ := kv
    by_cases h0 : k0 = k
    · subst h0
      by_cases h : k2 = k0
      · subst h
        simp [setKey, lookupKey]
      · have h2 : ¬ k0 = k2 := fun hh => h (Eq.symm hh)
        simp [setKey, lookupKey, h, h2]
    · by_cases h : k2 = k0
      · subst h
        simp [setKey, lookupKey, h0]
      · have h2 : ¬ k0 = k2 := fun hh => h (Eq.symm hh)
        simp [setKey, lookupKey, h0, h2, ih, h]

/-- The `tgt_idx` stamped on a target by the submission loop is readable back:
the later `obs_id` write does not disturb it. -/
theorem tgtIdxOf_decorated (t : JSObj) (obsId : String) (n : JsNum) :
    tgtIdxOf (setKey (setKey t "tgt_idx" (.num n)) "obs_id" (.str obsId)) = some n := by
  unfold tgtIdxOf
  rw [lookupKey_setKey, if_neg (by decide), lookupKey_setKey, if_pos rfl]

/-- C3 counterexample: with the malformed row FIRST among three staged rows,
the two valid targets receive `tgt_idx` 1 and 2 — not 0 and 1 as the claim
states — because the loop assigns the raw row index, which keeps counting
across skipped rows. -/
theorem tgt_idx_counterexample :
    ((processStagedRows "OBS-1"
        [.malformed, .valid [("id", .str "A")] [], .valid [("id", .str "B")] []]).1.map
      tgtIdxOf) = [some ⟨1, 1⟩, some ⟨2, 1⟩] ∧
    ¬ ([some (⟨1, 1⟩ : JsNum), some ⟨2, 1⟩] = [some ⟨0, 1⟩, some ⟨1, 1⟩]) :=
  ⟨rfl, by decide⟩

/-- C3 (amended): a submission over 2 valid rows and 1 malformed row (in any
order) completes, skips the malformed row, and assembles exactly 2 targets and
2 target configs; each target's `tgt_idx` is its 0-based STAGED-ROW index (so
0 and 1 exactly when the malformed row comes last; 1 and 2 when it comes
first). -/
theorem submission_skips_malformed_rows (obsId : String) (t₁ c₁ t₂ c₂ : JSObj) (i : ℕ) :
    ((processStagedRows obsId
        (if i = 0 then [StagedRow.malformed, .valid t₁ c₁, .valid t₂ c₂]
         else if i = 1 then [.valid t₁ c₁, .malformed, .valid t₂ c₂]
         else [.valid t₁ c₁, .valid t₂ c₂, .malformed])).1.length = 2 ∧
     (processStagedRows obsId
        (if i = 0 then [StagedRow.malformed, .valid t₁ c₁, .valid t₂ c₂]
         else if i = 1 then [.valid t₁ c₁, .malformed, .valid t₂ c₂]
         else [.valid t₁ c₁, .valid t₂ c₂, .malformed])).1.map tgtIdxOf =
       (if i = 0 then [some ⟨1, 1⟩, some ⟨2, 1⟩]
        else if i = 1 then [some ⟨0, 1⟩, some ⟨2, 1⟩]
        else [some ⟨0, 1⟩, some ⟨1, 1⟩]) ∧
     (processStagedRows obsId
        (if i = 0 then [StagedRow.malformed, .valid t₁ c₁, .valid t₂ c₂]
         else if i = 1 then [.valid t₁ c₁, .malformed, .valid t₂ c₂]
         else [.valid t₁ c₁, .valid t₂ c₂, .malformed])).2.length = 2) := by
  match i with
  | 0 =>
    simp [processStagedRows, processStagedFrom, tgtIdxOf_decorated, JsNum.ofInt]
  | 1 =>
    simp [processStagedRows, processStagedFrom, tgtIdxOf_decorated, JsNum.ofInt]
  | n + 2 =>
    simp [processStagedRows, processStagedFrom, tgtIdxOf_decorated, JsNum.ofInt]

/-- C7: for all (finite) real inputs the altitude lies in `[-90, 90]`: the
argument of `asin` is clamped into `[-1, 1]`, `asin` lands in `[-π/2, π/2]`,
and the degree conversion scales that to `[-90, 90]`.  In this real-valued
model the function is total, which is the counterpart of "never NaN". -/
theorem computeAltitudeDeg_bounded (raDeg decDeg latDeg lstDeg : ℝ) :
    -90 ≤ computeAltitudeDeg raDeg decDeg latDeg lstDeg ∧
      computeAltitudeDeg raDeg decDeg latDeg lstDeg ≤ 90 := by
  have hpi : (0 : ℝ) < Real.pi := Real.pi_pos
  unfold computeAltitudeDeg
  constructor
  · have e1 : -(Real.pi / 2) * 180 / Real.pi = -90 := by
      field_simp
      ring
    rw [← e1]
    exact (div_le_div_iff_of_pos_right hpi).mpr
      (mul_le_mul_of_nonneg_right (Real.neg_pi_div_two_le_arcsin _) (by norm_num))
  · have e2 : Real.pi / 2 * 180 / Real.pi = 90 := by
      field_simp
      ring
    rw [← e2]
    exact (div_le_div_iff_of_pos_right hpi).mpr
      (mul_le_mul_of_nonneg_right (Real.arcsin_le_pi_div_two _) (by norm_num))
